import Mathlib

/-!
Verification development for the pg_walrus adaptive WAL-sizing engine.

This file gives a shallow embedding of the engine's core logic:

* `calculate_new_size`, `calculate_shrink_size`, `compute_confidence`,
  `compute_recommendation` from `src/algorithm.rs`;
* `check_rate_limit`, `update_rate_limit_state_after_adjustment` and the
  worker cycle `process_checkpoint_stats` from `src/worker.rs`;
* `reset_state` from `src/shmem.rs` and `analyze` from `src/functions.rs`.

Machine integers (`i32`, `i64`) are modelled as `Int` with explicit wrapping
and saturation where the source uses casts or `saturating_*` operations.
PostgreSQL globals (GUC settings, `max_wal_size`, the checkpoint counter,
the clock, the outcome of `ALTER SYSTEM`) are passed as explicit parameters.
The Rust `f64` value `walrus.shrink_factor` is modelled as an exact rational;
every concrete evaluation below uses factors and magnitudes (such as
`3/4 * 4096`) on which IEEE-754 double arithmetic is exact, so the concrete
runs agree with the compiled code.

The shared-memory struct in `src/shmem.rs` declares five fields, while
`src/worker.rs`, `src/functions.rs` and the in-repo tests additionally read
and write `changes_this_hour` and `hour_window_start`.  The state is
modelled with all seven fields; `reset_state` performs exactly the five
assignments written in `src/shmem.rs`.
-/

/-- Largest `i32` value. -/
def i32max : Int := 2147483647

/-- Smallest `i32` value. -/
def i32min : Int := -2147483648

/-- Largest `i64` value. -/
def i64max : Int := 9223372036854775807

/-- Smallest `i64` value. -/
def i64min : Int := -9223372036854775808

/-- Two's-complement truncation to 32 bits, the semantics of Rust's
`as i32` cast from a wider integer. -/
def wrap32 (x : Int) : Int := (x + 2 ^ 31) % 2 ^ 32 - 2 ^ 31

/-- Rust `i32::saturating_mul`: the exact product clamped to the `i32` range. -/
def satMul32 (a b : Int) : Int :=
  if a * b > i32max then i32max
  else if a * b < i32min then i32min
  else a * b

/-- Rust `i64::saturating_add`: the exact sum clamped to the `i64` range. -/
def satAdd64 (a b : Int) : Int :=
  if a + b > i64max then i64max
  else if a + b < i64min then i64min
  else a + b

/-- Rust `as i32` cast from `f64`-derived integers: saturating conversion
(the semantics of float-to-int `as` casts). -/
def satCast32 (x : Int) : Int :=
  if x > i32max then i32max
  else if x < i32min then i32min
  else x

/-- Shared-memory worker state (`WalrusState` in `src/shmem.rs`), extended
with the two rate-limit fields that `src/worker.rs`, `src/functions.rs` and
the repository's tests read and write on the same struct. -/
structure WalrusState where
  quiet_intervals : Int
  total_adjustments : Int
  prev_requested : Int
  last_check_time : Int
  last_adjustment_time : Int
  changes_this_hour : Int
  hour_window_start : Int
deriving Repr, DecidableEq

/-- The `reset_state` function of `src/shmem.rs`: it assigns zero to exactly
the five fields named in its body. -/
def reset_state (st : WalrusState) : WalrusState :=
  { st with
    quiet_intervals := 0
    total_adjustments := 0
    prev_requested := 0
    last_check_time := 0
    last_adjustment_time := 0 }

/-- Snapshot of the GUC configuration values read by the engine
(`src/guc.rs`).  `shrink_factor` models the `f64` GUC as a rational. -/
structure Config where
  enable : Bool
  max : Int
  threshold : Int
  shrink_enable : Bool
  shrink_factor : Rat
  shrink_intervals : Int
  min_size : Int
  dry_run : Bool
  cooldown_sec : Int
  max_changes_per_hour : Int
deriving Repr, DecidableEq

/-- `calculate_new_size` from `src/algorithm.rs`:
`let multiplier = (delta + 1) as i32; current_size.saturating_mul(multiplier)`.
The `as i32` cast truncates the `i64` sum `delta + 1` to 32 bits. -/
def calculate_new_size (current_size : Int) (delta : Int) : Int :=
  let multiplier := wrap32 (delta + 1)
  satMul32 current_size multiplier

/-- Ceiling of the exact rational product `c * q`.  Written with integer
floor division (`ceil x = -floor (-x)`, and `q.den > 0`) so that the kernel
can evaluate it on concrete inputs. -/
def ratCeilMul (c : Int) (q : Rat) : Int := -((-(c * q.num)).fdiv q.den)

/-- `calculate_shrink_size` from `src/algorithm.rs`:
`ceil(current_size * shrink_factor)` clamped below by `min_size`.  The `f64`
product is modelled as the exact rational product (its ceiling computed by
`ratCeilMul`); the cast of the ceiling back to `i32` saturates. -/
def calculate_shrink_size (current_size : Int) (shrink_factor : Rat)
    (min_size : Int) : Int :=
  let rounded := satCast32 (ratCeilMul current_size shrink_factor)
  max rounded min_size

/-- `compute_confidence` from `src/algorithm.rs`: 0 when statistics are
unavailable, otherwise 50 plus the three bonuses. -/
def compute_confidence (state : WalrusState) (checkpoint_count : Int) : Int :=
  if checkpoint_count < 0 then 0
  else
    let c1 : Int := 50
    let c2 := if checkpoint_count > 10 then c1 + 20 else c1
    let c3 := if state.quiet_intervals > 0 then c2 + 15 else c2
    if state.prev_requested > 0 then c3 + 15 else c3

/-- The `Recommendation` struct of `src/algorithm.rs`. -/
structure Recommendation where
  current_size_mb : Int
  recommended_size_mb : Int
  action : String
  reason : String
  confidence : Int
deriving Repr, DecidableEq

/-- `compute_recommendation` from `src/algorithm.rs`.  The globals it reads
(`max_wal_size`, the checkpoint counter and the GUC values) are passed as
the parameters `current_size`, `current_requested` and `cfg`. -/
def compute_recommendation (cfg : Config) (current_size : Int)
    (current_requested : Int) (state : WalrusState) : Recommendation :=
  let max_allowed := cfg.max
  let threshold := cfg.threshold
  if ¬ cfg.enable then
    ⟨current_size, current_size, "error", "extension is disabled", 0⟩
  else if current_requested < 0 then
    ⟨current_size, current_size, "error", "checkpoint statistics unavailable", 0⟩
  else
    let confidence := compute_confidence state current_requested
    if state.prev_requested > 0 then
      let delta := current_requested - state.prev_requested
      if delta ≥ threshold then
        let calculated_size := calculate_new_size current_size delta
        let is_capped := calculated_size > max_allowed
        let new_size := if is_capped then max_allowed else calculated_size
        if current_size ≥ new_size then
          ⟨current_size, current_size, "none",
            s!"already at maximum ({current_size} MB), {delta} forced checkpoints detected",
            confidence⟩
        else if is_capped then
          ⟨current_size, new_size, "increase",
            s!"{delta} forced checkpoints detected, recommend {new_size} MB (capped from {calculated_size} MB)",
            confidence⟩
        else
          ⟨current_size, new_size, "increase",
            s!"{delta} forced checkpoints detected, recommend increase to {new_size} MB",
            confidence⟩
      else if ¬ cfg.shrink_enable then
        ⟨current_size, current_size, "none",
          s!"low activity ({delta} forced checkpoints), shrink disabled",
          confidence⟩
      else if state.quiet_intervals < cfg.shrink_intervals then
        ⟨current_size, current_size, "none",
          s!"low activity, {state.quiet_intervals} of {cfg.shrink_intervals} quiet intervals needed for shrink",
          confidence⟩
      else if current_size ≤ cfg.min_size then
        ⟨current_size, current_size, "none",
          s!"already at minimum ({current_size} MB), {state.quiet_intervals} quiet intervals accumulated",
          confidence⟩
      else
        let new_size := calculate_shrink_size current_size cfg.shrink_factor cfg.min_size
        if new_size ≥ current_size then
          ⟨current_size, current_size, "none",
            s!"shrink target ({new_size} MB) not less than current ({current_size} MB)",
            confidence⟩
        else
          ⟨current_size, new_size, "decrease",
            s!"{state.quiet_intervals} quiet intervals, recommend decrease to {new_size} MB",
            confidence⟩
    else
      ⟨current_size, current_size, "none", "awaiting baseline checkpoint count",
        min confidence 50⟩

/-- The hour-window expiry test that `src/worker.rs` performs in both
`check_rate_limit` and `update_rate_limit_state_after_adjustment`:
the window is expired when `now >= hour_window_start + 3600` (saturating
add), or when no window has been started yet. -/
def hour_window_expired (now : Int) (state : WalrusState) : Bool :=
  if state.hour_window_start > 0 then
    decide (now ≥ satAdd64 state.hour_window_start 3600)
  else
    true

/-- `check_rate_limit` from `src/worker.rs`, returning the `blocked_by` tag:
`some "hourly_limit"` or `some "cooldown"` when blocked, `none` when the
adjustment is allowed. -/
def check_rate_limit (cfg : Config) (now : Int) (state : WalrusState) :
    Option String :=
  if cfg.max_changes_per_hour = 0 then
    some "hourly_limit"
  else if cfg.cooldown_sec > 0 ∧ state.last_adjustment_time > 0 ∧
      now < satAdd64 state.last_adjustment_time cfg.cooldown_sec then
    some "cooldown"
  else if ¬ hour_window_expired now state ∧
      state.changes_this_hour ≥ cfg.max_changes_per_hour then
    some "hourly_limit"
  else
    none

/-- `update_rate_limit_state_after_adjustment` from `src/worker.rs`: start a
fresh window with count 1 when the window expired, else increment the count. -/
def update_rate_limit_state_after_adjustment (now : Int) (state : WalrusState) :
    WalrusState :=
  if hour_window_expired now state then
    { state with changes_this_hour := 1, hour_window_start := now }
  else
    { state with changes_this_hour := state.changes_this_hour + 1 }

/-- History-record action tags written by the worker
(`insert_history_record` calls in `src/worker.rs`). -/
inductive HAction where
  | increase
  | capped
  | decrease
  | dry_run
  | skipped
deriving Repr, DecidableEq

/-- Observable outcome of one worker cycle: the shared-memory state after
the cycle, the baseline flag, the history records written, the size passed
to `ALTER SYSTEM` when it succeeded, and whether SIGHUP was sent. -/
structure CycleResult where
  state : WalrusState
  first_iteration : Bool
  history : List HAction
  altered : Option Int
  sighup : Bool
deriving Repr, DecidableEq

/-- GROW PATH section of `process_checkpoint_stats` in `src/worker.rs`,
entered when `delta >= threshold`.  `st3` is the shared-memory state after
the cycle has stamped `last_check_time`, advanced `prev_requested` and
reset `quiet_intervals` to 0. -/
def grow_cycle (cfg : Config) (now : Int) (current_size : Int)
    (applyOk : Bool) (delta : Int) (st3 : WalrusState) : CycleResult :=
  let calculated_size := calculate_new_size current_size delta
  let is_capped := calculated_size > cfg.max
  let new_size := if is_capped then cfg.max else calculated_size
  if current_size ≥ new_size then
    ⟨st3, false, [], none, false⟩
  else if (check_rate_limit cfg now st3).isSome then
    ⟨st3, false, [HAction.skipped], none, false⟩
  else if cfg.dry_run then
    ⟨update_rate_limit_state_after_adjustment now st3, false,
      [HAction.dry_run], none, false⟩
  else if ¬ applyOk then
    ⟨st3, false, [], none, false⟩
  else
    let st4 := { st3 with
      total_adjustments := st3.total_adjustments + 1
      last_adjustment_time := now }
    let st5 := update_rate_limit_state_after_adjustment now st4
    ⟨st5, false, [if is_capped then HAction.capped else HAction.increase],
      some new_size, true⟩

/-- SHRINK PATH section of `process_checkpoint_stats` in `src/worker.rs`,
entered when `delta < threshold`.  `st3` is the shared-memory state after
the cycle has stamped `last_check_time`, advanced `prev_requested` and
incremented `quiet_intervals`; `new_quiet_intervals` is the incremented
count the source re-derives locally. -/
def shrink_cycle (cfg : Config) (now : Int) (current_size : Int)
    (applyOk : Bool) (new_quiet_intervals : Int) (st3 : WalrusState) :
    CycleResult :=
  if ¬ cfg.shrink_enable then
    ⟨st3, false, [], none, false⟩
  else if new_quiet_intervals < cfg.shrink_intervals then
    ⟨st3, false, [], none, false⟩
  else if current_size ≤ cfg.min_size then
    ⟨st3, false, [], none, false⟩
  else
    let new_size := calculate_shrink_size current_size cfg.shrink_factor cfg.min_size
    if new_size ≥ current_size then
      ⟨st3, false, [], none, false⟩
    else if (check_rate_limit cfg now st3).isSome then
      ⟨st3, false, [HAction.skipped], none, false⟩
    else if cfg.dry_run then
      let st4 := { st3 with quiet_intervals := 0 }
      ⟨update_rate_limit_state_after_adjustment now st4, false,
        [HAction.dry_run], none, false⟩
    else if ¬ applyOk then
      ⟨st3, false, [], none, false⟩
    else
      let st4 := { st3 with
        total_adjustments := st3.total_adjustments + 1
        last_adjustment_time := now
        quiet_intervals := 0 }
      let st5 := update_rate_limit_state_after_adjustment now st4
      ⟨st5, false, [HAction.decrease], some new_size, true⟩

/-- `process_checkpoint_stats` from `src/worker.rs` as a state transition.

External effects are explicit parameters: `now` stands for the calls to
`now_unix()` during the cycle, `current_requested` for
`get_requested_checkpoints()` (negative when statistics are unavailable),
`current_size` for `get_current_max_wal_size()`, and `applyOk` for the
outcome of `execute_alter_system`. -/
def process_checkpoint_stats (cfg : Config) (now : Int)
    (current_requested : Int) (current_size : Int) (applyOk : Bool)
    (first_iteration : Bool) (st : WalrusState) : CycleResult :=
  if current_requested < 0 then
    ⟨st, first_iteration, [], none, false⟩
  else
    let st1 := { st with last_check_time := now }
    if first_iteration then
      ⟨{ st1 with prev_requested := current_requested }, false, [], none, false⟩
    else
      let quiet_intervals := st1.quiet_intervals
      let delta := current_requested - st1.prev_requested
      let st2 := { st1 with prev_requested := current_requested }
      if delta ≥ cfg.threshold then
        grow_cycle cfg now current_size applyOk delta
          { st2 with quiet_intervals := 0 }
      else
        shrink_cycle cfg now current_size applyOk (quiet_intervals + 1)
          { st2 with quiet_intervals := st2.quiet_intervals + 1 }

/-- Observable outcome of `walrus.analyze` (`analyze` in `src/functions.rs`):
the JSONB flags, the state after the call, the size passed to
`ALTER SYSTEM` when it was executed, and whether SIGHUP was sent. -/
structure AnalyzeResult where
  analyzed : Bool
  applied : Bool
  state : WalrusState
  altered : Option Int
  sighup : Bool
deriving Repr, DecidableEq

/-- `analyze` from `src/functions.rs` as a state transition.  The
`pgrx::error!` abort on a non-superuser caller with `apply = true` is the
`Except.error` case; `alterOk` is the outcome of `execute_alter_system`. -/
def analyze (cfg : Config) (now : Int) (current_size : Int)
    (current_requested : Int) (apply : Bool) (superuser : Bool)
    (alterOk : Bool) (st : WalrusState) : Except String AnalyzeResult :=
  if apply ∧ ¬ superuser then
    Except.error "permission denied: walrus.analyze(apply := true) requires superuser"
  else if ¬ cfg.enable then
    Except.ok ⟨false, false, st, none, false⟩
  else
    let r := compute_recommendation cfg current_size current_requested st
    if apply ∧ r.action ≠ "none" ∧ r.action ≠ "error" then
      if r.action = "increase" ∧ current_size ≥ r.recommended_size_mb then
        Except.ok ⟨true, false, st, none, false⟩
      else if r.action = "decrease" ∧ current_size ≤ r.recommended_size_mb then
        Except.ok ⟨true, false, st, none, false⟩
      else if alterOk then
        let st1 := { st with
          total_adjustments := st.total_adjustments + 1
          last_adjustment_time := now
          quiet_intervals := if r.action = "increase" then 0 else st.quiet_intervals }
        Except.ok ⟨true, true, st1, some r.recommended_size_mb, true⟩
      else
        Except.ok ⟨true, false, st, none, false⟩
    else
      Except.ok ⟨true, false, st, none, false⟩

/-- Concrete configuration with the documented GUC defaults
(`walrus.max = 4096`, `threshold = 2`, `shrink_factor = 0.75`,
`shrink_intervals = 5`, `min_size = 1024`, `cooldown_sec = 300`,
`max_changes_per_hour = 4`, dry-run off). -/
def cfgDefault : Config :=
  ⟨true, 4096, 2, true, ⟨3, 4, by norm_num, by norm_num⟩, 5, 1024, false, 300, 4⟩

/-- All-zero shared-memory state (the state after PostgreSQL start). -/
def stZero : WalrusState := ⟨0, 0, 0, 0, 0, 0, 0⟩

/-- C1 counterexample: at `delta = 2147483647` the cast `(delta + 1) as i32`
truncates `2 ^ 31` to `-2 ^ 31`, so `calculate_new_size 1 2147483647` wraps
to a negative value instead of saturating to the maximum positive `i32`. -/
theorem calculate_new_size_wrap_counterexample :
    calculate_new_size 1 2147483647 = -2147483648 ∧
    calculate_new_size 1 2147483647 ≠ min (1 * (2147483647 + 1)) i32max ∧
    calculate_new_size 1 2147483647 < 0 := by decide

/-- C1 (amended): for `0 ≤ current_size ≤ i32max` and `0 ≤ delta` with
`delta + 1 ≤ i32max` (so the multiplier survives the `as i32` cast),
`calculate_new_size` equals the product `current_size * (delta + 1)`
saturated at the maximum positive `i32`, and the result never wraps. -/
theorem calculate_new_size_saturates (c d : Int) (hc0 : 0 ≤ c) (hc : c ≤ i32max)
    (hd0 : 0 ≤ d) (hd : d + 1 ≤ i32max) :
    calculate_new_size c d = min (c * (d + 1)) i32max ∧
    0 ≤ calculate_new_size c d ∧ calculate_new_size c d ≤ i32max := by
  have e1 : i32max = 2147483647 := rfl
  have e2 : i32min = -2147483648 := rfl
  have hwrap : wrap32 (d + 1) = d + 1 := by
    unfold wrap32
    omega
  have hprod : 0 ≤ c * (d + 1) := mul_nonneg hc0 (by omega)
  simp only [calculate_new_size]
  rw [hwrap]
  unfold satMul32
  split_ifs with h1 h2 <;> omega

/-- Witness for `calculate_new_size_saturates` at `current = 1024, delta = 3`. -/
theorem calculate_new_size_saturates_witness :
    calculate_new_size 1024 3 = min (1024 * (3 + 1)) i32max ∧
    0 ≤ calculate_new_size 1024 3 ∧ calculate_new_size 1024 3 ≤ i32max :=
  calculate_new_size_saturates 1024 3 (by decide) (by decide) (by decide) (by decide)

/-- C4: `reset_state` zeroes only the five fields written in `src/shmem.rs`;
the rate-limit bookkeeping fields `changes_this_hour` and `hour_window_start`
are left untouched, contradicting the repository's own test
`test_reset_clears_rate_limit_state`. -/
theorem reset_state_keeps_rate_limit_fields :
    reset_state ⟨7, 9, 100, 1000, 900, 3, 1234567890⟩ =
      ⟨0, 0, 0, 0, 0, 3, 1234567890⟩ ∧
    (3 : Int) ≠ 0 ∧ (1234567890 : Int) ≠ 0 := by decide

/-- C5 counterexample: with no baseline (`prev_requested = 0`) and the
unavailable-statistics sentinel (`metric = -1`), `compute_recommendation`
returns the `error` action with the statistics-unavailable reason, not the
`none`/awaiting-baseline outcome the claim asserts for every metric value. -/
theorem awaiting_baseline_unavailable_counterexample :
    (compute_recommendation cfgDefault 1024 (-1) stZero).action = "error" ∧
    (compute_recommendation cfgDefault 1024 (-1) stZero).action ≠ "none" ∧
    (compute_recommendation cfgDefault 1024 (-1) stZero).reason =
      "checkpoint statistics unavailable" := by decide

/-- C5 (amended): with the extension enabled, a non-negative metric and no
baseline (`prev_requested = 0`), `compute_recommendation` returns `none`
with the awaiting-baseline reason, confidence at most 50, and keeps the
current size. -/
theorem awaiting_baseline_recommendation (cfg : Config) (cs m : Int)
    (st : WalrusState) (hen : cfg.enable = true) (hm : 0 ≤ m)
    (hprev : st.prev_requested = 0) :
    (compute_recommendation cfg cs m st).action = "none" ∧
    (compute_recommendation cfg cs m st).reason = "awaiting baseline checkpoint count" ∧
    (compute_recommendation cfg cs m st).confidence ≤ 50 ∧
    (compute_recommendation cfg cs m st).recommended_size_mb = cs := by
  have hm' : ¬ m < 0 := not_lt.2 hm
  refine ⟨?_, ?_, ?_, ?_⟩ <;>
    simp [compute_recommendation, hen, hm', hprev, min_le_right]

/-- Witness for `awaiting_baseline_recommendation` at the all-zero state. -/
theorem awaiting_baseline_recommendation_witness :
    (compute_recommendation cfgDefault 1024 5 stZero).action = "none" ∧
    (compute_recommendation cfgDefault 1024 5 stZero).reason =
      "awaiting baseline checkpoint count" ∧
    (compute_recommendation cfgDefault 1024 5 stZero).confidence ≤ 50 ∧
    (compute_recommendation cfgDefault 1024 5 stZero).recommended_size_mb = 1024 :=
  awaiting_baseline_recommendation cfgDefault 1024 5 stZero rfl (by decide) rfl

/-- C7: when `max_changes_per_hour = 0`, `check_rate_limit` blocks every
automatic adjustment with the `hourly_limit` reason, for every state and
every current time. -/
theorem check_rate_limit_emergency_stop (cfg : Config) (now : Int)
    (st : WalrusState) (h : cfg.max_changes_per_hour = 0) :
    check_rate_limit cfg now st = some "hourly_limit" := by
  simp [check_rate_limit, h]

/-- Witness for `check_rate_limit_emergency_stop`: a cooldown-free state is
still blocked when the hourly cap is zero. -/
theorem check_rate_limit_emergency_stop_witness :
    check_rate_limit { cfgDefault with max_changes_per_hour := 0 } 1000 stZero =
      some "hourly_limit" :=
  check_rate_limit_emergency_stop { cfgDefault with max_changes_per_hour := 0 }
    1000 stZero rfl

/-- C6: with `cooldown_sec = 300`, a positive hourly cap and a window that
is not at its cap, the rate limiter allows an adjustment exactly at the
cooldown boundary (`last_adjustment_time = now - 300`) and blocks with
reason `cooldown` one second earlier (`last_adjustment_time = now - 299`). -/
theorem check_rate_limit_cooldown_boundary (cfg : Config) (now : Int)
    (st st' : WalrusState)
    (hcd : cfg.cooldown_sec = 300) (hmax : 0 < cfg.max_changes_per_hour)
    (hwin : st.hour_window_start ≤ 0 ∨ now ≥ satAdd64 st.hour_window_start 3600 ∨
      st.changes_this_hour < cfg.max_changes_per_hour)
    (hnow : 300 < now) (hnow2 : now < i64max)
    (hla : st.last_adjustment_time = now - 300)
    (hla' : st'.last_adjustment_time = now - 299)
    (hw : st'.hour_window_start = st.hour_window_start)
    (hch : st'.changes_this_hour = st.changes_this_hour) :
    check_rate_limit cfg now st = none ∧
    check_rate_limit cfg now st' = some "cooldown" := by
  have e1 : i64max = 9223372036854775807 := rfl
  have e2 : i64min = -9223372036854775808 := rfl
  have h1 : satAdd64 st.last_adjustment_time cfg.cooldown_sec = now := by
    unfold satAdd64
    rw [hcd, hla]
    split_ifs <;> omega
  have h2 : satAdd64 st'.last_adjustment_time cfg.cooldown_sec = now + 1 := by
    unfold satAdd64
    rw [hcd, hla']
    split_ifs <;> omega
  constructor
  · have hhw : ¬ (¬ hour_window_expired now st = true ∧
        st.changes_this_hour ≥ cfg.max_changes_per_hour) := by
      unfold hour_window_expired
      rcases hwin with h | h | h
      · rw [if_neg (show ¬ st.hour_window_start > 0 by omega)]
        simp
      · by_cases hw0 : st.hour_window_start > 0
        · rw [if_pos hw0]
          simp [h]
        · rw [if_neg hw0]
          simp
      · intro hcon
        omega
    unfold check_rate_limit
    rw [if_neg (by omega : ¬ cfg.max_changes_per_hour = 0)]
    rw [h1]
    rw [if_neg (by omega :
      ¬ (cfg.cooldown_sec > 0 ∧ st.last_adjustment_time > 0 ∧ now < now))]
    rw [if_neg hhw]
  · unfold check_rate_limit
    rw [if_neg (by omega : ¬ cfg.max_changes_per_hour = 0)]
    rw [h2]
    rw [if_pos ⟨by omega, by omega, by omega⟩]

/-- Witness for `check_rate_limit_cooldown_boundary` at `now = 1000` with a
fresh hourly window. -/
theorem check_rate_limit_cooldown_boundary_witness :
    check_rate_limit cfgDefault 1000 { stZero with last_adjustment_time := 700 } = none ∧
    check_rate_limit cfgDefault 1000 { stZero with last_adjustment_time := 701 } =
      some "cooldown" :=
  check_rate_limit_cooldown_boundary cfgDefault 1000
    { stZero with last_adjustment_time := 700 }
    { stZero with last_adjustment_time := 701 }
    rfl (by decide) (Or.inl (by decide)) (by decide) (by decide)
    rfl rfl rfl rfl

/-- C8: at `current = 1024`, `threshold = 2` and `delta = 3` the grow target
is `1024 * 4 = 4096`; with `walrus.max = 2048` the worker caps the size to
2048 and records the `capped` action, and `compute_recommendation`
recommends 2048 (an increase capped at the maximum). -/
theorem grow_capped_scenario :
    calculate_new_size 1024 3 = 4096 ∧
    process_checkpoint_stats { cfgDefault with max := 2048 } 1000 13 1024 true false
        { stZero with prev_requested := 10 } =
      ⟨⟨0, 1, 13, 1000, 1000, 1, 1000⟩, false, [HAction.capped], some 2048, true⟩ ∧
    (compute_recommendation { cfgDefault with max := 2048 } 1024 13
        { stZero with prev_requested := 10 }).recommended_size_mb = 2048 ∧
    (compute_recommendation { cfgDefault with max := 2048 } 1024 13
        { stZero with prev_requested := 10 }).action = "increase" := by decide

/-- C2 counterexample: in a grow cycle whose `ALTER SYSTEM` fails
(`applyOk = false`, nothing applied, no history written), the cycle has
already advanced `prev_requested` from 10 to 13, reset `quiet_intervals`
from 3 to 0 and stamped `last_check_time`, so the engine state is not left
unchanged. -/
theorem apply_failure_advances_state_counterexample :
    (process_checkpoint_stats cfgDefault 1000 13 1024 false false
        { stZero with prev_requested := 10, quiet_intervals := 3 }) =
      ⟨⟨0, 0, 13, 1000, 0, 0, 0⟩, false, [], none, false⟩ ∧
    (13 : Int) ≠ 10 ∧ (0 : Int) ≠ 3 := by decide

/-- Helper: a grow-path section run outside dry-run mode whose apply fails
leaves the adjustment bookkeeping of its input state untouched. -/
theorem grow_cycle_no_apply (cfg : Config) (now cs delta : Int)
    (st3 : WalrusState) (hdr : cfg.dry_run = false) :
    (grow_cycle cfg now cs false delta st3).state.total_adjustments =
      st3.total_adjustments ∧
    (grow_cycle cfg now cs false delta st3).state.last_adjustment_time =
      st3.last_adjustment_time ∧
    (grow_cycle cfg now cs false delta st3).state.changes_this_hour =
      st3.changes_this_hour ∧
    (grow_cycle cfg now cs false delta st3).state.hour_window_start =
      st3.hour_window_start ∧
    (grow_cycle cfg now cs false delta st3).altered = none ∧
    (grow_cycle cfg now cs false delta st3).sighup = false := by
  simp only [grow_cycle]
  split_ifs <;>
    first
      | exact ⟨rfl, rfl, rfl, rfl, rfl, rfl⟩
      | exact absurd ‹cfg.dry_run = true› (by rw [hdr]; decide)
      | exact absurd rfl ‹¬False → False›
      | exact (‹False›).elim

/-- Helper: a shrink-path section run outside dry-run mode whose apply fails
leaves the adjustment bookkeeping of its input state untouched. -/
theorem shrink_cycle_no_apply (cfg : Config) (now cs nq : Int)
    (st3 : WalrusState) (hdr : cfg.dry_run = false) :
    (shrink_cycle cfg now cs false nq st3).state.total_adjustments =
      st3.total_adjustments ∧
    (shrink_cycle cfg now cs false nq st3).state.last_adjustment_time =
      st3.last_adjustment_time ∧
    (shrink_cycle cfg now cs false nq st3).state.changes_this_hour =
      st3.changes_this_hour ∧
    (shrink_cycle cfg now cs false nq st3).state.hour_window_start =
      st3.hour_window_start ∧
    (shrink_cycle cfg now cs false nq st3).altered = none ∧
    (shrink_cycle cfg now cs false nq st3).sighup = false := by
  simp only [shrink_cycle]
  split_ifs <;>
    first
      | exact ⟨rfl, rfl, rfl, rfl, rfl, rfl⟩
      | exact absurd ‹cfg.dry_run = true› (by rw [hdr]; decide)
      | exact absurd rfl ‹¬False → False›
      | exact (‹False›).elim

/-- C2 (amended): in every worker cycle run outside dry-run mode whose
`ALTER SYSTEM` application fails, no adjustment bookkeeping is advanced:
`total_adjustments`, `last_adjustment_time` and the rate-limit counters
`changes_this_hour` and `hour_window_start` are unchanged, no size is
applied and no reload signal is sent.  (The cycle's measurement bookkeeping
`last_check_time`, `prev_requested` and `quiet_intervals` is still
updated before the apply step, as the counterexample shows.) -/
theorem apply_failure_preserves_adjustment_bookkeeping (cfg : Config)
    (now cr cs : Int) (first : Bool) (st : WalrusState) (r : CycleResult)
    (hdr : cfg.dry_run = false)
    (hr : r = process_checkpoint_stats cfg now cr cs false first st) :
    r.state.total_adjustments = st.total_adjustments ∧
    r.state.last_adjustment_time = st.last_adjustment_time ∧
    r.state.changes_this_hour = st.changes_this_hour ∧
    r.state.hour_window_start = st.hour_window_start ∧
    r.altered = none ∧ r.sighup = false := by
  subst hr
  simp only [process_checkpoint_stats]
  split_ifs
  · exact ⟨rfl, rfl, rfl, rfl, rfl, rfl⟩
  · exact ⟨rfl, rfl, rfl, rfl, rfl, rfl⟩
  · exact grow_cycle_no_apply cfg now cs _ _ hdr
  · exact shrink_cycle_no_apply cfg now cs _ _ hdr

/-- Witness for `apply_failure_preserves_adjustment_bookkeeping` on a
concrete failing grow cycle. -/
theorem apply_failure_preserves_adjustment_bookkeeping_witness :
    (process_checkpoint_stats cfgDefault 1000 13 1024 false false
        { stZero with prev_requested := 10 }).state.total_adjustments =
      ({ stZero with prev_requested := 10 } : WalrusState).total_adjustments ∧
    (process_checkpoint_stats cfgDefault 1000 13 1024 false false
        { stZero with prev_requested := 10 }).state.last_adjustment_time =
      ({ stZero with prev_requested := 10 } : WalrusState).last_adjustment_time ∧
    (process_checkpoint_stats cfgDefault 1000 13 1024 false false
        { stZero with prev_requested := 10 }).state.changes_this_hour =
      ({ stZero with prev_requested := 10 } : WalrusState).changes_this_hour ∧
    (process_checkpoint_stats cfgDefault 1000 13 1024 false false
        { stZero with prev_requested := 10 }).state.hour_window_start =
      ({ stZero with prev_requested := 10 } : WalrusState).hour_window_start ∧
    (process_checkpoint_stats cfgDefault 1000 13 1024 false false
        { stZero with prev_requested := 10 }).altered = none ∧
    (process_checkpoint_stats cfgDefault 1000 13 1024 false false
        { stZero with prev_requested := 10 }).sighup = false :=
  apply_failure_preserves_adjustment_bookkeeping cfgDefault 1000 13 1024 false
    { stZero with prev_requested := 10 } _ rfl rfl

/-- Helper: the rate-limit bookkeeping update never touches
`quiet_intervals`. -/
theorem update_rate_limit_quiet (now : Int) (st : WalrusState) :
    (update_rate_limit_state_after_adjustment now st).quiet_intervals =
      st.quiet_intervals := by
  unfold update_rate_limit_state_after_adjustment
  split_ifs <;> rfl

/-- Helper: every outcome of the grow-path section keeps the already-reset
`quiet_intervals` at zero. -/
theorem grow_cycle_quiet (cfg : Config) (now cs delta : Int) (ok : Bool)
    (st3 : WalrusState) (h : st3.quiet_intervals = 0) :
    (grow_cycle cfg now cs ok delta st3).state.quiet_intervals = 0 := by
  simp only [grow_cycle]
  split_ifs <;>
    first
      | exact h
      | (rw [update_rate_limit_quiet]; exact h)

/-- Helper: a shrink-path section that applies or dry-runs a shrink
(`altered` set, or a `dry_run` history record) resets `quiet_intervals`. -/
theorem shrink_cycle_quiet (cfg : Config) (now cs nq : Int) (ok : Bool)
    (st3 : WalrusState)
    (h : (shrink_cycle cfg now cs ok nq st3).altered.isSome = true ∨
      (shrink_cycle cfg now cs ok nq st3).history = [HAction.dry_run]) :
    (shrink_cycle cfg now cs ok nq st3).state.quiet_intervals = 0 := by
  simp only [shrink_cycle] at h ⊢
  split_ifs at h ⊢ <;>
    first
      | (change (update_rate_limit_state_after_adjustment now _).quiet_intervals = 0
         rw [update_rate_limit_quiet])
      | (rcases h with h | h <;> simp at h)

/-- Helper: when `walrus.analyze(apply := true)` actually applies a change,
the resulting `quiet_intervals` is 0 for an `increase` action and the old
value otherwise. -/
theorem analyze_applied_quiet (cfg : Config) (now cs cr : Int) (su ok : Bool)
    (st : WalrusState) (r : AnalyzeResult)
    (h : analyze cfg now cs cr true su ok st = Except.ok r)
    (happ : r.applied = true) :
    r.state.quiet_intervals =
      (if (compute_recommendation cfg cs cr st).action = "increase" then 0
       else st.quiet_intervals) := by
  simp only [analyze] at h
  split_ifs at h <;>
    first
      | exact Except.noConfusion h
      | (rw [Except.ok.injEq] at h; subst h;
         rw [if_pos ‹(compute_recommendation cfg cs cr st).action = "increase"›])
      | (rw [Except.ok.injEq] at h; subst h;
         rw [if_neg ‹¬ (compute_recommendation cfg cs cr st).action = "increase"›])
      | (rw [Except.ok.injEq] at h; subst h; exact absurd happ (by simp))

/-- C3 (amended): `quiet_intervals` ends at 0 after every worker grow cycle,
and after every worker shrink cycle that applies or dry-runs a shrink; a
manually applied increase via `walrus.analyze` also resets it, but a
manually applied decrease via `walrus.analyze` leaves `quiet_intervals`
unchanged. -/
theorem quiet_intervals_reset_amended :
    (∀ cfg now cr cs ok st, 0 ≤ cr →
       cr - st.prev_requested ≥ cfg.threshold →
       (process_checkpoint_stats cfg now cr cs ok false st).state.quiet_intervals = 0) ∧
    (∀ cfg now cr cs ok st, 0 ≤ cr →
       ¬ cr - st.prev_requested ≥ cfg.threshold →
       ((process_checkpoint_stats cfg now cr cs ok false st).altered.isSome = true ∨
        (process_checkpoint_stats cfg now cr cs ok false st).history = [HAction.dry_run]) →
       (process_checkpoint_stats cfg now cr cs ok false st).state.quiet_intervals = 0) ∧
    (∀ cfg now cs cr su ok st r,
       analyze cfg now cs cr true su ok st = Except.ok r → r.applied = true →
       (compute_recommendation cfg cs cr st).action = "increase" →
       r.state.quiet_intervals = 0) ∧
    (∀ cfg now cs cr su ok st r,
       analyze cfg now cs cr true su ok st = Except.ok r → r.applied = true →
       (compute_recommendation cfg cs cr st).action = "decrease" →
       r.state.quiet_intervals = st.quiet_intervals) := by
  refine ⟨?_, ?_, ?_, ?_⟩
  · intro cfg now cr cs ok st hcr hdelta
    have hcr' : ¬ cr < 0 := not_lt.2 hcr
    simp only [process_checkpoint_stats]
    rw [if_neg hcr', if_neg (by decide : ¬ (false = true)), if_pos hdelta]
    exact grow_cycle_quiet cfg now cs _ ok _ rfl
  · intro cfg now cr cs ok st hcr hdelta hadj
    have hcr' : ¬ cr < 0 := not_lt.2 hcr
    simp only [process_checkpoint_stats] at hadj ⊢
    rw [if_neg hcr', if_neg (by decide : ¬ (false = true)), if_neg hdelta] at hadj ⊢
    exact shrink_cycle_quiet cfg now cs _ ok _ hadj
  · intro cfg now cs cr su ok st r h happ hact
    rw [analyze_applied_quiet cfg now cs cr su ok st r h happ, if_pos hact]
  · intro cfg now cs cr su ok st r h happ hact
    rw [analyze_applied_quiet cfg now cs cr su ok st r h happ,
      if_neg (by rw [hact]; decide)]

/-- C3 counterexample: a manually applied decrease via
`walrus.analyze(apply := true)` (recommendation `decrease` to 3072 MB from
4096 MB after 5 quiet intervals) leaves `quiet_intervals` at 5, not 0. -/
theorem analyze_decrease_keeps_quiet_intervals :
    (analyze cfgDefault 1000 4096 10 true true true
        { stZero with prev_requested := 10, quiet_intervals := 5 }).toOption.map
      (fun r => (r.applied, r.altered, r.state.quiet_intervals)) =
      some (true, some 3072, 5) ∧
    (compute_recommendation cfgDefault 4096 10
        { stZero with prev_requested := 10, quiet_intervals := 5 }).action =
      "decrease" ∧
    (5 : Int) ≠ 0 := by decide

/-- Witness for `quiet_intervals_reset_amended` on a concrete grow cycle. -/
theorem quiet_intervals_reset_amended_witness :
    (process_checkpoint_stats cfgDefault 1000 13 1024 true false
        { stZero with prev_requested := 10 }).state.quiet_intervals = 0 :=
  quiet_intervals_reset_amended.1 cfgDefault 1000 13 1024 true
    { stZero with prev_requested := 10 } (by decide) (by decide)

/-- C10: `walrus.analyze(apply := true)` never consults the rate limiter:
no run of `analyze` ever changes `changes_this_hour` or
`hour_window_start`, and a manual apply with an `increase` or `decrease`
recommendation executes `ALTER SYSTEM` even when `check_rate_limit` blocks
(cooldown active, hourly cap reached, or `max_changes_per_hour = 0`). -/
theorem analyze_bypasses_rate_limiter :
    (∀ cfg now cs cr ap su ok st r,
       analyze cfg now cs cr ap su ok st = Except.ok r →
       r.state.changes_this_hour = st.changes_this_hour ∧
       r.state.hour_window_start = st.hour_window_start) ∧
    (∀ cfg now cs cr st b, cfg.enable = true →
       check_rate_limit cfg now st = some b →
       (compute_recommendation cfg cs cr st).action = "increase" →
       cs < (compute_recommendation cfg cs cr st).recommended_size_mb →
       (analyze cfg now cs cr true true true st).toOption.map
         (fun r => (r.applied, r.altered)) =
       some (true, some (compute_recommendation cfg cs cr st).recommended_size_mb)) ∧
    (∀ cfg now cs cr st b, cfg.enable = true →
       check_rate_limit cfg now st = some b →
       (compute_recommendation cfg cs cr st).action = "decrease" →
       (compute_recommendation cfg cs cr st).recommended_size_mb < cs →
       (analyze cfg now cs cr true true true st).toOption.map
         (fun r => (r.applied, r.altered)) =
       some (true, some (compute_recommendation cfg cs cr st).recommended_size_mb)) := by
  refine ⟨?_, ?_, ?_⟩
  · intro cfg now cs cr ap su ok st r h
    simp only [analyze] at h
    split_ifs at h <;>
      first
        | exact Except.noConfusion h
        | (rw [Except.ok.injEq] at h; subst h; exact ⟨rfl, rfl⟩)
  · intro cfg now cs cr st b hen hblock hact hlt
    simp only [analyze]
    rw [if_neg (by simp : ¬ (True ∧ ¬ True))]
    rw [if_neg (by simp [hen] : ¬ ¬ cfg.enable = true)]
    rw [if_pos (show True ∧ (compute_recommendation cfg cs cr st).action ≠ "none" ∧
        (compute_recommendation cfg cs cr st).action ≠ "error" from
      ⟨trivial, by rw [hact]; decide, by rw [hact]; decide⟩)]
    rw [if_neg (show ¬ ((compute_recommendation cfg cs cr st).action = "increase" ∧
        cs ≥ (compute_recommendation cfg cs cr st).recommended_size_mb) from
      fun hc => absurd hc.2 (not_le.2 hlt))]
    rw [if_neg (show ¬ ((compute_recommendation cfg cs cr st).action = "decrease" ∧
        cs ≤ (compute_recommendation cfg cs cr st).recommended_size_mb) from
      fun hc => absurd (hact ▸ hc.1) (by decide))]
    rw [if_pos trivial]
    rfl
  · intro cfg now cs cr st b hen hblock hact hlt
    simp only [analyze]
    rw [if_neg (by simp : ¬ (True ∧ ¬ True))]
    rw [if_neg (by simp [hen] : ¬ ¬ cfg.enable = true)]
    rw [if_pos (show True ∧ (compute_recommendation cfg cs cr st).action ≠ "none" ∧
        (compute_recommendation cfg cs cr st).action ≠ "error" from
      ⟨trivial, by rw [hact]; decide, by rw [hact]; decide⟩)]
    rw [if_neg (show ¬ ((compute_recommendation cfg cs cr st).action = "increase" ∧
        cs ≥ (compute_recommendation cfg cs cr st).recommended_size_mb) from
      fun hc => absurd (hact ▸ hc.1) (by decide))]
    rw [if_neg (show ¬ ((compute_recommendation cfg cs cr st).action = "decrease" ∧
        cs ≤ (compute_recommendation cfg cs cr st).recommended_size_mb) from
      fun hc => absurd hc.2 (not_le.2 hlt))]
    rw [if_pos trivial]
    rfl

/-- Witness for `analyze_bypasses_rate_limiter`: with the hourly cap at 0
(every automatic adjustment blocked), a manual apply of an `increase`
recommendation still executes. -/
theorem analyze_bypasses_rate_limiter_witness :
    (analyze { cfgDefault with max := 8192, max_changes_per_hour := 0 } 1000 1024 13
        true true true { stZero with prev_requested := 10 }).toOption.map
      (fun r => (r.applied, r.altered)) =
    some (true, some (compute_recommendation
      { cfgDefault with max := 8192, max_changes_per_hour := 0 } 1024 13
      { stZero with prev_requested := 10 }).recommended_size_mb) :=
  analyze_bypasses_rate_limiter.2.1
    { cfgDefault with max := 8192, max_changes_per_hour := 0 } 1000 1024 13
    { stZero with prev_requested := 10 } "hourly_limit" rfl (by decide)
    (by decide) (by decide)
